import Mathlib

/-!
Shallow embedding of the `ai_backbone_python` generation service.

Python strings are modeled as `List Char`; `str.strip()` is `pyStrip`
(dropping whitespace from both ends), `len` is `List.length`, truthiness of a
string is non-emptiness, and `Optional[str]` is `Option (List Char)`.
Float literals (`1.7`, `0.5`, `0.4`) are modeled as the exact rationals they
denote, with arithmetic over `ℚ`.
-/

/-- Python `s.strip()`: drop whitespace from both ends of the string. -/
def pyStrip (s : List Char) : List Char :=
  ((s.dropWhile Char.isWhitespace).reverse.dropWhile Char.isWhitespace).reverse

/-- One step of Python `s.split()` (right fold state: finished words, current word). -/
def pySplitStep (c : Char) (acc : List (List Char) × List Char) :
    List (List Char) × List Char :=
  if c.isWhitespace then (if acc.2 = [] then acc.1 else acc.2 :: acc.1, [])
  else (acc.1, c :: acc.2)

/-- Python `s.split()` with no argument: split on whitespace runs, no empty words. -/
def pySplitWs (s : List Char) : List (List Char) :=
  let r := s.foldr pySplitStep ([], [])
  if r.2 = [] then r.1 else r.2 :: r.1

/-- Python `s.replace(a, b)` for single characters. -/
def pyReplace (s : List Char) (a b : Char) : List Char :=
  s.map (fun c => if c = a then b else c)

/-- Dropping trailing whitespace. -/
def dropTrail (l : List Char) : List Char :=
  (l.reverse.dropWhile Char.isWhitespace).reverse

/-!
## Character Registry (`app/core/character_store.py`)

The singleton `CharacterStore` keeps `Dict[str, str]`; we model the dictionary
as an association list (keys unique in any state reachable from the empty
store).  The `RLock` serializes operations, so each API call acts on the map
atomically; we model each method as a pure state transformer.
-/

/-- The store's backing `Dict[str, str]`. -/
abbrev CharStore : Type := List (List Char × List Char)

/-- Python `dict` update `m[k] = v`: overwrite in place, else append. -/
def dictSet (m : CharStore) (k v : List Char) : CharStore :=
  if (List.any m fun p => p.1 == k) then
    List.map (fun p => if p.1 == k then (k, v) else p) m
  else m ++ [(k, v)]

/-- `CharacterStore.set_character`: no-op on blank id or blank description,
otherwise stores the stripped description. -/
def set_character (store : CharStore) (access_id character_description : List Char) :
    CharStore :=
  if access_id = [] ∨ pyStrip access_id = [] then store
  else if character_description = [] ∨ pyStrip character_description = [] then store
  else dictSet store access_id (pyStrip character_description)

/-- `CharacterStore.get_character`. -/
def get_character (store : CharStore) (access_id : List Char) : Option (List Char) :=
  if access_id = [] ∨ pyStrip access_id = [] then none
  else Option.map (fun p => p.2) (List.find? (fun p => p.1 == access_id) store)

/-- `CharacterStore.has_character`. -/
def has_character (store : CharStore) (access_id : List Char) : Bool :=
  if access_id = [] then false
  else List.any store fun p => p.1 == access_id

/-- `CharacterStore.remove_character`: returns the success flag and the new state. -/
def remove_character (store : CharStore) (access_id : List Char) :
    Bool × CharStore :=
  if access_id = [] then (false, store)
  else if List.any store (fun p => p.1 == access_id) then
    (true, List.filter (fun p => !(p.1 == access_id)) store)
  else (false, store)

/-- `CharacterStore.clear_all`. -/
def clear_all (_ : CharStore) : CharStore := []

/-- One registry operation (the mutating and reading API surface). -/
inductive StoreOp where
  | set (access_id character_description : List Char)
  | get (access_id : List Char)
  | remove (access_id : List Char)
  | clear

/-- Effect of one operation on the registry state (`get` reads only). -/
def applyOp (store : CharStore) : StoreOp → CharStore
  | StoreOp.set a d => set_character store a d
  | StoreOp.get _ => store
  | StoreOp.remove a => (remove_character store a).2
  | StoreOp.clear => clear_all store

/-- Registry state after a sequence of operations, starting empty. -/
def runOps (ops : List StoreOp) : CharStore :=
  List.foldl applyOp ([] : CharStore) ops

/-- The registry invariant: every stored description is non-empty and carries
no surrounding whitespace. -/
def StoreInv (store : CharStore) : Prop :=
  ∀ p ∈ store, pyStrip p.2 = p.2 ∧ p.2 ≠ []

/-!
## Output Validator (`app/service/post_processor.py`)
-/

/-- `re.search(r'(.)\1{4,}', s)`: some char other than a newline occurs five or
more times in a row (`.` does not match a newline). -/
def has_char_run5 : List Char → Bool
  | [] => false
  | a :: rest =>
      (match rest with
       | b :: c :: d :: e :: _ =>
           (a != '\n') && (a == b) && (b == c) && (c == d) && (d == e)
       | _ => false)
        || has_char_run5 rest

/-- `re.search(r'[가-힣a-zA-Z]', ...)` membership test for one char. -/
def is_letter_or_hangul (c : Char) : Bool :=
  (decide ('가' ≤ c) && decide (c ≤ '힣'))
    || (decide ('a' ≤ c) && decide (c ≤ 'z'))
    || (decide ('A' ≤ c) && decide (c ≤ 'Z'))

/-- The degenerate placeholder tokens rejected by `validate_output`. -/
def INVALID_TOKENS : List (List Char) :=
  ["<unk>".data, "[PAD]".data, "[UNK]".data, "<pad>".data, "<s>".data, "</s>".data]

/-- `post_processor.validate_output`. -/
def validate_output (purified : List Char) : Bool :=
  if purified = [] ∨ pyStrip purified = [] then false
  else if (pyStrip purified).length < 2 then false
  else if has_char_run5 purified then false
  else if !(List.any purified is_letter_or_hangul) then false
  else if List.any INVALID_TOKENS (fun t => decide (t <:+: purified)) then false
  else true

/-- `post_processor.is_over_modified`: the Python float literals `1.7` and `0.5`
are modeled as the exact rationals `17/10` and `1/2`. -/
def is_over_modified (original purified : List Char) : Bool :=
  let original_len := (pyStrip original).length
  let purified_len := (pyStrip purified).length
  if original_len = 0 then false
  else
    let len_ratio : ℚ := (purified_len : ℚ) / (original_len : ℚ)
    if len_ratio > 17/10 ∨ len_ratio < 1/2 then true else false

/-- Word set of `s.replace(',', ' ').replace('.', ' ').split()` (a Python `set`,
modeled as the deduplicated word list). -/
def pyWordSet (s : List Char) : List (List Char) :=
  List.dedup (pySplitWs (pyReplace (pyReplace s ',' ' ') '.' ' '))

/-- `post_processor.check_meaning_preservation`; the threshold `0.4` is the
exact rational `2/5`. -/
def check_meaning_preservation (original purified : List Char) : Bool :=
  let original_words := pyWordSet original
  let purified_words := pyWordSet purified
  if original_words = [] then true
  else
    let overlap := (List.filter (fun w => List.contains purified_words w) original_words).length
    let similarity : ℚ := (overlap : ℚ) / (original_words.length : ℚ)
    if similarity < 2/5 then false else true

/-- The short-phrase whitelist of `post_processor.is_whitelisted`. -/
def WHITELIST : List (List Char) :=
  ["좋아".data, "싫어".data, "예뻐".data, "귀여워".data, "멋있어".data,
   "보고싶어".data, "사랑해".data, "맛있어".data, "재미있어".data,
   "고마워".data, "미안해".data, "반가워".data, "즐거워".data,
   "행복해".data, "신나".data, "기뻐".data, "슬퍼".data]

/-- `post_processor.is_whitelisted`: `text.strip().replace(' ', '')` compared
against the whitelist, plus the ≤5-char all-whitelisted-words rule. -/
def is_whitelisted (text : List Char) : Bool :=
  let text_clean := List.filter (fun c => !(c == ' ')) (pyStrip text)
  if text_clean ∈ WHITELIST then true
  else if text_clean.length ≤ 5 then
    List.all (pySplitWs text_clean) (fun w => w ∈ WHITELIST)
  else false

/-- `post_processor.post_process`: the validator chain; the first failing check
makes the caller keep the original text. -/
def post_process (original purified : List Char) : List Char :=
  if validate_output purified = false then original
  else if is_over_modified original purified = true then original
  else if check_meaning_preservation original purified = false then original
  else if is_whitelisted original = true then original
  else pyStrip purified

/-!
## Purifier (`app/model/purifier.py`)

`purify_sentence` runs the KoBART model — an external capability.  Its outcome
(a produced string, or an exception) is an oracle value of type `CallResult`.
-/

/-- Outcome of a call into an external capability: a value, or a raised
exception. -/
inductive CallResult (α : Type) where
  | ok (value : α)
  | raised
deriving DecidableEq

/-- `purifier.remove_dummy_tokens`: `re.sub(r"(그그그|으으)", "", text)` —
left-to-right scan, at each position the alternative `그그그` is tried before
`으으`, matches are removed and scanning resumes after them. -/
def remove_dummy_tokens : List Char → List Char
  | '그' :: '그' :: '그' :: rest => remove_dummy_tokens rest
  | '으' :: '으' :: rest => remove_dummy_tokens rest
  | c :: rest => c :: remove_dummy_tokens rest
  | [] => []

/-- `purifier.keep_before_first_period`: empty input becomes a single space;
otherwise everything before the first `.` is kept (all of it if there is
none). -/
def keep_before_first_period (text : List Char) : List Char :=
  if text = [] then [' ']
  else if List.contains text '.' then List.takeWhile (fun c => !(c == '.')) text
  else text

/-- `purifier.refine`: runs the model and the two post-steps inside a
`try`, and returns the original text unchanged when the model call raises. -/
def refine (text : List Char) (model_outcome : CallResult (List Char)) : List Char :=
  match model_outcome with
  | CallResult.ok purified => keep_before_first_period (remove_dummy_tokens purified)
  | CallResult.raised => text

/-!
## Prompt Composer (`app/service/prompt_builder.py`)
-/

/-- `prompt_builder.STYLE_KEYWORDS_TO_REMOVE`. -/
def STYLE_KEYWORDS_TO_REMOVE : List (List Char) :=
  ["webtoon style illustration".data, "clean lines".data, "vibrant colors".data,
   "professional digital illustration".data, "studio quality".data,
   "manhwa art style".data, "digital art".data]

/-- `prompt_builder.build_webtoon_prompt`. -/
def build_webtoon_prompt (character_description : Option (List Char))
    (scene_description : List Char) (include_style : Bool) : List Char :=
  let style_parts : List (List Char) :=
    if include_style then
      [List.intercalate ", ".data (STYLE_KEYWORDS_TO_REMOVE.take 5)]
    else []
  let character_parts : List (List Char) :=
    match character_description with
    | some c => if c ≠ [] ∧ pyStrip c ≠ [] then ["Character: ".data ++ pyStrip c] else []
    | none => []
  let scene_parts : List (List Char) :=
    if scene_description ≠ [] ∧ pyStrip scene_description ≠ [] then
      ["Scene: ".data ++ pyStrip scene_description]
    else []
  List.intercalate ". ".data (style_parts ++ character_parts ++ scene_parts) ++ ".".data

/-- `prompt_builder.compose_korean_scene`.  `ko_to_ko_translate` performs a
network round trip and never raises (it catches every exception and falls back
to its input); its input/output behavior is the oracle function `koko`. -/
def compose_korean_scene (character_description : Option (List Char))
    (scene_description : List Char) (koko : List Char → List Char) : List Char :=
  let scene := pyStrip scene_description
  match character_description with
  | some character =>
      if character = [] then koko scene
      else koko (pyStrip character ++ "의 모습이 담긴 장면으로, ".data ++ scene)
  | none => koko scene

/-!
## Image-generation capability (`app/service/openai_image_service.py`)

`generate_image` catches every exception class raised by the OpenAI client and
always returns a dict with keys `image_url`, `refined_content`,
`error_message` (its docstring: it never lets an exception escape).  The
behavior of the remote OpenAI call is the oracle value `OpenAIOutcome`.
-/

/-- The dict returned by `generate_image`. -/
structure DalleResult where
  image_url : Option (List Char)
  refined_content : Option (List Char)
  error_message : Option (List Char)
deriving DecidableEq

/-- One item of `resp.data` (url and optional revised prompt). -/
structure RespItem where
  url : Option (List Char)
  revised_prompt : Option (List Char)
deriving DecidableEq

/-- Outcome of `client.images.generate`: a (possibly malformed) response, or
one of the exception classes handled by `generate_image`.  `success none`
models a falsy response or one without a `data` attribute. -/
inductive OpenAIOutcome where
  | success (data : Option (List RespItem))
  | badRequest (msg : List Char)
  | rateLimit (msg : List Char)
  | connectionError (msg : List Char)
  | apiError (msg : List Char)
  | unexpected (msg : List Char)
deriving DecidableEq

/-- The Korean "server problem" message used for invalid `generate_image` input. -/
def SERVER_PROBLEM_MSG : List Char := "서버 문제로 이미지를 생성하지 못합니다.".data

/-- The content-policy marker string. -/
def CPV_MSG : List Char := "content_policy_violation".data

/-- `openai_image_service.generate_image`. -/
def generate_image (clientOk : Bool) (models prompt : List Char)
    (api_outcome : OpenAIOutcome) : DalleResult :=
  if clientOk = false then
    ⟨none, none, some "OpenAI client is not initialized".data⟩
  else if prompt = [] ∨ pyStrip prompt = [] then
    ⟨none, none, some SERVER_PROBLEM_MSG⟩
  else if models = [] ∨ pyStrip models = [] then
    ⟨none, none, some SERVER_PROBLEM_MSG⟩
  else
    match api_outcome with
    | OpenAIOutcome.success none =>
        ⟨none, none, some "Invalid OpenAI response structure (no data)".data⟩
    | OpenAIOutcome.success (some []) =>
        ⟨none, none, some "OpenAI response data is empty".data⟩
    | OpenAIOutcome.success (some (item0 :: _)) =>
        let image_url : Option (List Char) :=
          match item0.url with
          | none => none
          | some u => if u = [] ∨ pyStrip u = [] then none else some u
        (match image_url with
         | none => ⟨none, none, some "OpenAI response has no image url".data⟩
         | some u => ⟨some u, item0.revised_prompt, none⟩)
    | OpenAIOutcome.badRequest msg =>
        if decide (CPV_MSG <:+: msg) then ⟨none, none, some CPV_MSG⟩
        else ⟨none, none, some ("Bad request: ".data ++ msg)⟩
    | OpenAIOutcome.rateLimit _ =>
        ⟨none, none, some "Rate limit exceeded. Please try again later.".data⟩
    | OpenAIOutcome.connectionError _ =>
        ⟨none, none, some "Failed to connect to OpenAI API. Please check your network.".data⟩
    | OpenAIOutcome.apiError msg =>
        ⟨none, none, some ("OpenAI API error: ".data ++ msg)⟩
    | OpenAIOutcome.unexpected msg =>
        ⟨none, none, some ("Unexpected error: ".data ++ msg)⟩

/-!
## Generation endpoint (`app/api/v1/api_image.py`, `generate_image_api`)

The request handler is modeled as a pure function of the request, the
character-store state, and an environment of capability oracles.  Branches of
the source that are unreachable given the sources of the callees are omitted
with a note:
* the `except` around the refinement block — `refine` catches every exception
  of the model call itself and falls back to the input (see `refine`);
* the `isinstance(dalle_result, dict)` check and the `except` around the
  DALL-E block — `generate_image` always returns a dict and never raises;
* the `except` around translation — `translate_to_korean` catches every
  exception internally (fails open), so it is the total oracle function
  `Env.translate`;
* the `except` around response preparation — `compose_korean_scene` and
  `ko_to_ko_translate` are total.
-/

/-- The request DTO `ImageRequest`. -/
structure ImageRequest where
  access_id : List Char
  original_content : List Char
  is_slang : Bool
  access_id_character : Option (List Char)
deriving DecidableEq

/-- The response DTO `ImageResponse`. -/
structure ImageResponse where
  access_id : List Char
  is_slang : Bool
  original_content : List Char
  filtered_content : List Char
  refined_content : List Char
  revised_prompt : List Char
  image_url : Option (List Char)
  error_message : Option (List Char)
deriving DecidableEq

/-- Capability oracles of one request execution. -/
structure Env where
  purify : CallResult (List Char)
  clientOk : Bool
  openai : OpenAIOutcome
  translate : List Char → List Char
  koko : List Char → List Char

/-- The fixed model identifier constant of the endpoint module. -/
def IMAGE_MODEL : List Char := "dall-e-3".data

/-- Error message for an empty/blank scene text. -/
def EMPTY_PROMPT_MSG : List Char := "프롬프트가 비어있습니다.".data

/-- Error message for a degenerate purification result. -/
def REFINE_ERROR_MSG : List Char := "프롬프트 정제 중 오류가 발생했습니다.".data

/-- Caller-facing message for a content-policy rejection. -/
def POLICY_MSG : List Char := "콘텐츠 정책에 위반되어 이미지를 만들지 않습니다.".data

/-- Message stem for a missing image URL. -/
def GEN_FAIL_MSG : List Char := "이미지 생성 실패: ".data

/-- The "unknown error" default detail. -/
def UNKNOWN_ERROR_MSG : List Char := "알 수 없는 오류".data

/-- Step 1 of the handler: save a newly supplied character description
(truthy and non-blank) before reading the store back. -/
def store_after_character_save (req : ImageRequest) (store : CharStore) : CharStore :=
  match req.access_id_character with
  | some c =>
      if c ≠ [] ∧ pyStrip c ≠ [] then set_character store req.access_id c
      else store
  | none => store

/-- Step 2 of the handler: the purification stage.  `none` models the early
return with the refinement error (empty/blank purifier output); otherwise the
filtered scene text. -/
def purify_stage (req : ImageRequest) (env : Env) : Option (List Char) :=
  if req.is_slang then
    let purified_prompt := refine req.original_content env.purify
    if purified_prompt = [] ∨ pyStrip purified_prompt = [] then none
    else some purified_prompt
  else some req.original_content

/-- Step 3 of the handler: prompt construction (`if saved_character:` chooses
the branch; both call `build_webtoon_prompt` with style enabled). -/
def final_prompt_of (saved_character : Option (List Char)) (filtered_content : List Char) :
    List Char :=
  match saved_character with
  | some c =>
      if c ≠ [] then build_webtoon_prompt (some c) filtered_content true
      else build_webtoon_prompt none filtered_content true
  | none => build_webtoon_prompt none filtered_content true

/-- Steps 5–7 of the handler: classification of the DALL-E result dict and
response assembly. -/
def classify_response (req : ImageRequest) (saved_character : Option (List Char))
    (filtered_content : List Char) (dalle_result : DalleResult) (env : Env) :
    ImageResponse :=
  if dalle_result.error_message = some CPV_MSG then
    { access_id := req.access_id, is_slang := req.is_slang,
      original_content := req.original_content,
      filtered_content := filtered_content,
      refined_content := filtered_content, revised_prompt := [],
      image_url := none, error_message := some POLICY_MSG }
  else
    match dalle_result.image_url with
    | none =>
        let detail : List Char :=
          match dalle_result.error_message with
          | some m => if m = [] then UNKNOWN_ERROR_MSG else m
          | none => UNKNOWN_ERROR_MSG
        { access_id := req.access_id, is_slang := req.is_slang,
          original_content := req.original_content,
          filtered_content := filtered_content,
          refined_content := [], revised_prompt := [],
          image_url := none,
          error_message := some (GEN_FAIL_MSG ++ detail) }
    | some url =>
        let dalle_revised0 := Option.getD dalle_result.refined_content []
        let dalle_revised :=
          if dalle_revised0 ≠ [] ∧ pyStrip dalle_revised0 ≠ [] then
            env.translate dalle_revised0
          else filtered_content
        let refined_for_response :=
          compose_korean_scene saved_character filtered_content env.koko
        { access_id := req.access_id, is_slang := req.is_slang,
          original_content := req.original_content,
          filtered_content := filtered_content,
          refined_content := refined_for_response,
          revised_prompt := dalle_revised,
          image_url := some url, error_message := none }

/-- `api_image.generate_image_api`: returns the response and the
character-store state after the request. -/
def generate_image_api (req : ImageRequest) (store : CharStore) (env : Env) :
    ImageResponse × CharStore :=
  if req.original_content = [] ∨ pyStrip req.original_content = [] then
    ({ access_id := req.access_id, is_slang := req.is_slang,
       original_content := req.original_content, filtered_content := [],
       refined_content := [], revised_prompt := [],
       image_url := none, error_message := some EMPTY_PROMPT_MSG }, store)
  else
    let store1 := store_after_character_save req store
    let saved_character := get_character store1 req.access_id
    match purify_stage req env with
    | none =>
        ({ access_id := req.access_id, is_slang := req.is_slang,
           original_content := req.original_content, filtered_content := [],
           refined_content := [], revised_prompt := [],
           image_url := none, error_message := some REFINE_ERROR_MSG }, store1)
    | some filtered_content =>
        (classify_response req saved_character filtered_content
          (generate_image env.clientOk IMAGE_MODEL
            (final_prompt_of saved_character filtered_content) env.openai)
          env,
         store1)

/-!
## Theorems
-/

/- Helper lemmas about `pyStrip`. -/

theorem dropWhile_self_eq (p : Char → Bool) (l : List Char) :
    (l.dropWhile p).dropWhile p = l.dropWhile p := by
  induction l with
  | nil => rfl
  | cons a t ih =>
    by_cases h : p a
    · simp [List.dropWhile_cons, h, ih]
    · simp [List.dropWhile_cons, h]

theorem dropWhile_head_false (p : Char → Bool) (l : List Char) (a : Char)
    (t : List Char) (h : l.dropWhile p = a :: t) : p a = false := by
  induction l with
  | nil => simp [List.dropWhile] at h
  | cons b u ih =>
    by_cases hb : p b
    · exact ih (by simpa [List.dropWhile_cons, hb] using h)
    · rw [List.dropWhile_cons] at h
      simp [hb] at h
      simp [← h.1, hb]

theorem dropWhile_exists_take (p : Char → Bool) (l : List Char) :
    ∃ q, q ++ l.dropWhile p = l := by
  induction l with
  | nil => exact ⟨[], rfl⟩
  | cons a t ih =>
    by_cases h : p a
    · obtain ⟨q, hq⟩ := ih
      exact ⟨a :: q, by simp [List.dropWhile_cons, h, hq]⟩
    · exact ⟨[], by simp [List.dropWhile_cons, h]⟩

theorem pyStrip_eq_dropTrail (s : List Char) :
    pyStrip s = dropTrail (s.dropWhile Char.isWhitespace) := rfl

theorem dropTrail_dropTrail (l : List Char) :
    dropTrail (dropTrail l) = dropTrail l := by
  unfold dropTrail
  rw [List.reverse_reverse, dropWhile_self_eq]

theorem dropTrail_exists_append (l : List Char) :
    ∃ r, dropTrail l ++ r = l := by
  obtain ⟨q, hq⟩ := dropWhile_exists_take Char.isWhitespace l.reverse
  refine ⟨q.reverse, ?_⟩
  have : (q ++ l.reverse.dropWhile Char.isWhitespace).reverse = l := by
    rw [hq, List.reverse_reverse]
  simpa [List.reverse_append, dropTrail] using this

theorem pyStrip_head_false (s : List Char) (a : Char) (t : List Char)
    (h : pyStrip s = a :: t) : a.isWhitespace = false := by
  rw [pyStrip_eq_dropTrail] at h
  obtain ⟨r, hr⟩ := dropTrail_exists_append (s.dropWhile Char.isWhitespace)
  rw [h] at hr
  exact dropWhile_head_false Char.isWhitespace s a (t ++ r) (by simpa using hr.symm)

theorem pyStrip_pyStrip (s : List Char) : pyStrip (pyStrip s) = pyStrip s := by
  cases h : pyStrip s with
  | nil => rfl
  | cons a t =>
    have ha : a.isWhitespace = false := pyStrip_head_false s a t h
    have h1 : (a :: t).dropWhile Char.isWhitespace = a :: t := by
      simp [List.dropWhile_cons, ha]
    have h2 : pyStrip (a :: t) = pyStrip s := by
      calc pyStrip (a :: t)
          = dropTrail ((a :: t).dropWhile Char.isWhitespace) := rfl
        _ = dropTrail (a :: t) := by rw [h1]
        _ = dropTrail (pyStrip s) := by rw [h]
        _ = dropTrail (dropTrail (s.dropWhile Char.isWhitespace)) := by
              rw [pyStrip_eq_dropTrail]
        _ = dropTrail (s.dropWhile Char.isWhitespace) := dropTrail_dropTrail _
        _ = pyStrip s := rfl
    exact h2.trans h

theorem dropWhile_ne_nil_of_mem (p : Char → Bool) (l : List Char) (c : Char)
    (hc : c ∈ l) (hp : p c = false) : l.dropWhile p ≠ [] := by
  induction l with
  | nil => cases hc
  | cons a t ih =>
    by_cases ha : p a
    · rw [List.dropWhile_cons]
      simp only [ha, if_true]
      rcases List.mem_cons.mp hc with h | h
      · exact absurd (h ▸ ha) (by simp [hp])
      · exact ih h
    · simp [List.dropWhile_cons, ha]

theorem pyStrip_ne_nil_of_mem (l : List Char) (c : Char)
    (hc : c ∈ l) (hp : c.isWhitespace = false) : pyStrip l ≠ [] := by
  have h1 : l.dropWhile Char.isWhitespace ≠ [] := dropWhile_ne_nil_of_mem _ l c hc hp
  cases hu : l.dropWhile Char.isWhitespace with
  | nil => exact absurd hu h1
  | cons a t =>
    have ha : a.isWhitespace = false := dropWhile_head_false _ l a t hu
    have hmem : a ∈ (a :: t).reverse := by simp
    have h2 : (a :: t).reverse.dropWhile Char.isWhitespace ≠ [] :=
      dropWhile_ne_nil_of_mem _ _ a hmem ha
    unfold pyStrip
    rw [hu]
    simpa using h2

/- Association-list lemmas for the character store. -/

theorem find_map_dictSet (k v : List Char) (m : CharStore)
    (h : List.any m (fun p => p.1 == k) = true) :
    List.find? (fun p => p.1 == k)
      (List.map (fun p => if p.1 == k then (k, v) else p) m) = some (k, v) := by
  induction m with
  | nil => simp at h
  | cons a t ih =>
    by_cases ha : a.1 == k
    · simp only [List.map_cons]
      rw [if_pos ha]
      simp [List.find?_cons]
    · have ht : List.any t (fun p => p.1 == k) = true := by
        simpa [List.any_cons, ha] using h
      have hfa : (a.1 == k) = false := by simpa using ha
      simp only [List.map_cons]
      rw [if_neg ha]
      rw [List.find?_cons]
      simp only [hfa, if_false]
      exact ih ht

theorem find_append_single (k v : List Char) (m : CharStore)
    (h : List.any m (fun p => p.1 == k) = false) :
    List.find? (fun p => p.1 == k) (m ++ [(k, v)]) = some (k, v) := by
  induction m with
  | nil =>
    rw [List.nil_append]
    simp [List.find?_cons]
  | cons a t ih =>
    rw [List.any_cons, Bool.or_eq_false_iff] at h
    rw [List.cons_append]
    rw [List.find?_cons]
    simp only [h.1, if_false]
    exact ih h.2

theorem find_dictSet (m : CharStore) (k v : List Char) :
    List.find? (fun p => p.1 == k) (dictSet m k v) = some (k, v) := by
  unfold dictSet
  split
  · next h => exact find_map_dictSet k v m h
  · next h => exact find_append_single k v m (Bool.eq_false_iff.mpr h)

theorem mem_dictSet (m : CharStore) (k v : List Char) (q : List Char × List Char)
    (hq : q ∈ dictSet m k v) : q ∈ m ∨ q = (k, v) := by
  unfold dictSet at hq
  split at hq
  · obtain ⟨p, hp, he⟩ := List.mem_map.mp hq
    by_cases h : p.1 == k
    · right
      rw [← he, if_pos h]
    · left
      rw [← he, if_neg h]
      exact hp
  · rcases List.mem_append.mp hq with h | h
    · exact Or.inl h
    · exact Or.inr (by simpa using h)

theorem pyStrip_nil : pyStrip ([] : List Char) = [] := rfl

theorem get_character_set_character (store : CharStore) (access_id d : List Char)
    (hid : pyStrip access_id ≠ []) (hd : pyStrip d ≠ []) :
    get_character (set_character store access_id d) access_id = some (pyStrip d) := by
  have hid' : access_id ≠ [] := by
    intro h
    exact hid (by rw [h, pyStrip_nil])
  have hd' : d ≠ [] := by
    intro h
    exact hd (by rw [h, pyStrip_nil])
  unfold set_character
  rw [if_neg (by simp [hid', hid]), if_neg (by simp [hd', hd])]
  unfold get_character
  rw [if_neg (by simp [hid', hid])]
  rw [find_dictSet]
  rfl

theorem storeInv_set (store : CharStore) (a d : List Char)
    (h : StoreInv store) : StoreInv (set_character store a d) := by
  unfold set_character
  split
  · exact h
  · split
    · exact h
    · next hd =>
      intro q hq
      rcases mem_dictSet store a (pyStrip d) q hq with hm | he
      · exact h q hm
      · rw [he]
        refine ⟨pyStrip_pyStrip d, ?_⟩
        intro hnil
        exact hd (Or.inr hnil)

theorem storeInv_remove (store : CharStore) (a : List Char)
    (h : StoreInv store) : StoreInv (remove_character store a).2 := by
  unfold remove_character
  split
  · exact h
  · split
    · intro q hq
      exact h q (List.mem_filter.mp hq).1
    · exact h

theorem storeInv_foldl (ops : List StoreOp) :
    ∀ store, StoreInv store → StoreInv (List.foldl applyOp store ops) := by
  induction ops with
  | nil => exact fun store h => h
  | cons op t ih =>
    intro store h
    rw [List.foldl_cons]
    apply ih
    cases op with
    | set a d => exact storeInv_set store a d h
    | get a => exact h
    | remove a => exact storeInv_remove store a h
    | clear => exact fun q hq => absurd hq (List.not_mem_nil q)

/-- C5: across every sequence of registry operations starting from the empty
registry, every stored description is non-empty and free of surrounding
whitespace; a `set` with a blank description or a blank owner id leaves the
registry unchanged. -/
theorem c5_registry_invariant :
    (∀ (ops : List StoreOp) (p : List Char × List Char), p ∈ runOps ops →
        pyStrip p.2 = p.2 ∧ p.2 ≠ [])
    ∧ (∀ (store : CharStore) (id d : List Char),
        pyStrip d = [] ∨ pyStrip id = [] → set_character store id d = store) := by
  constructor
  · intro ops p hp
    exact storeInv_foldl ops [] (fun q hq => absurd hq (List.not_mem_nil q)) p hp
  · intro store id d h
    unfold set_character
    rcases h with h | h
    · split
      · rfl
      · rw [if_pos (Or.inr h)]
    · rw [if_pos (Or.inr h)]

/-- Witness for C5 at concrete inputs: the description `" x "` is stored as
`"x"`, and a `set` with a blank description is a no-op. -/
theorem c5_registry_invariant_witness :
    (pyStrip ['x'] = ['x'] ∧ (['x'] : List Char) ≠ [])
    ∧ set_character [] ['b'] [' '] = [] :=
  ⟨c5_registry_invariant.1 [StoreOp.set ['a'] [' ', 'x', ' ']] (['a'], ['x'])
      (by decide),
   c5_registry_invariant.2 [] ['b'] [' '] (Or.inl (by decide))⟩

/-- C4 counterexample: the registry stores the trimmed description, so after
`set("a", "x")` then `set("a", " y ")`, `get("a")` returns `"y"`, not the
written `" y "` — the claim's unqualified "get(id) returns d2" fails. -/
theorem c4_untrimmed_write_cex :
    get_character
        (set_character (set_character [] ['a'] ['x']) ['a'] [' ', 'y', ' '])
        ['a'] = some ['y']
    ∧ some (' ' :: 'y' :: ' ' :: []) ≠
        get_character
          (set_character (set_character [] ['a'] ['x']) ['a'] [' ', 'y', ' '])
          ['a'] := by decide

/-- C4 as amended: for non-blank owner id and non-blank second description,
`set(id, d1)` then `set(id, d2)` makes `get(id)` return the trimmed `d2`
(last write wins); after `remove(id)`, `has(id)` is false; `set` with a blank
description leaves the registry unchanged. -/
theorem c4_registry_contract :
    (∀ (store : CharStore) (id d1 d2 : List Char),
        pyStrip id ≠ [] → pyStrip d2 ≠ [] →
        get_character (set_character (set_character store id d1) id d2) id
          = some (pyStrip d2))
    ∧ (∀ (store : CharStore) (id : List Char),
        has_character (remove_character store id).2 id = false)
    ∧ (∀ (store : CharStore) (id d : List Char),
        pyStrip d = [] → set_character store id d = store) := by
  refine ⟨?_, ?_, ?_⟩
  · intro store id d1 d2 hid hd2
    exact get_character_set_character (set_character store id d1) id d2 hid hd2
  · intro store id
    unfold remove_character has_character
    by_cases hid : id = []
    · rw [if_pos hid]
    · rw [if_neg hid, if_neg hid]
      split
      · dsimp only
        apply List.any_eq_false.mpr
        intro q hq
        have h2 := (List.mem_filter.mp hq).2
        simpa using h2
      · next hany =>
        dsimp only
        exact Bool.eq_false_iff.mpr hany
  · intro store id d h
    unfold set_character
    split
    · rfl
    · rw [if_pos (Or.inr h)]

/-- Witness for C4 as amended at concrete inputs. -/
theorem c4_registry_contract_witness :
    get_character (set_character (set_character [] ['a'] ['x']) ['a'] ['z']) ['a']
      = some (pyStrip ['z'])
    ∧ has_character (remove_character [(['a'], ['x'])] ['a']).2 ['a'] = false
    ∧ set_character [(['a'], ['x'])] ['a'] ['\t'] = [(['a'], ['x'])] :=
  ⟨c4_registry_contract.1 [] ['a'] ['x'] ['z'] (by decide) (by decide),
   c4_registry_contract.2.1 [(['a'], ['x'])] ['a'],
   c4_registry_contract.2.2 [(['a'], ['x'])] ['a'] ['\t'] (by decide)⟩

theorem over_modified_iff_aux (original purified : List Char)
    (h : pyStrip original ≠ []) :
    is_over_modified original purified = true
      ↔ (10 * (pyStrip purified).length > 17 * (pyStrip original).length
          ∨ 2 * (pyStrip purified).length < (pyStrip original).length) := by
  have hol : (pyStrip original).length = 0 → False := by
    intro h0
    exact h (List.length_eq_zero.mp h0)
  have holq : (0 : ℚ) < ((pyStrip original).length : ℚ) := by
    exact_mod_cast Nat.pos_of_ne_zero hol
  rw [show is_over_modified original purified
      = (if (pyStrip original).length = 0 then false
         else if ((pyStrip purified).length : ℚ) / ((pyStrip original).length : ℚ) > 17/10
             ∨ ((pyStrip purified).length : ℚ) / ((pyStrip original).length : ℚ) < 1/2
           then true else false) from rfl]
  rw [if_neg hol]
  by_cases hc : ((pyStrip purified).length : ℚ) / ((pyStrip original).length : ℚ) > 17/10
      ∨ ((pyStrip purified).length : ℚ) / ((pyStrip original).length : ℚ) < 1/2
  · rw [if_pos hc]
    refine ⟨fun _ => ?_, fun _ => rfl⟩
    rcases hc with hgt | hlt
    · left
      rw [gt_iff_lt, div_lt_div_iff₀ (by norm_num) holq] at hgt
      have hn : 17 * (pyStrip original).length < (pyStrip purified).length * 10 := by
        exact_mod_cast hgt
      omega
    · right
      rw [div_lt_div_iff₀ holq (by norm_num)] at hlt
      have hn : (pyStrip purified).length * 2 < 1 * (pyStrip original).length := by
        exact_mod_cast hlt
      omega
  · rw [if_neg hc]
    constructor
    · intro hfalse
      exact Bool.noConfusion hfalse
    · intro hr
      exfalso
      apply hc
      rcases hr with hgt | hlt
      · left
        rw [gt_iff_lt, div_lt_div_iff₀ (by norm_num) holq]
        exact_mod_cast (by omega :
          17 * (pyStrip original).length < (pyStrip purified).length * 10)
      · right
        rw [div_lt_div_iff₀ holq (by norm_num)]
        exact_mod_cast (by omega :
          (pyStrip purified).length * 2 < 1 * (pyStrip original).length)

/-- C6 counterexample: with raw (untrimmed) lengths the claim fails — for
`original = " x "` (length 3) and `purified = "yy"` (length 2) the raw length
ratio 2/3 lies inside `[0.5, 1.7]`, yet `is_over_modified` is true because the
source measures the stripped lengths (2/1 = 2 > 1.7). -/
theorem c6_raw_length_cex :
    is_over_modified (' ' :: 'x' :: ' ' :: []) ('y' :: 'y' :: []) = true
    ∧ ¬ ((((('y' :: 'y' :: [] : List Char).length : ℚ))
            / (((' ' :: 'x' :: ' ' :: [] : List Char).length : ℚ)) > 17/10)
        ∨ (((('y' :: 'y' :: [] : List Char).length : ℚ))
            / (((' ' :: 'x' :: ' ' :: [] : List Char).length : ℚ)) < 1/2)) := by
  constructor
  · exact (over_modified_iff_aux _ _ (by decide)).mpr (by decide)
  · push_neg
    norm_num

/-- C6 as amended: with lengths measured after stripping surrounding
whitespace (as the source does), and the original non-blank after stripping,
`is_over_modified` is true exactly when the stripped-length ratio is strictly
outside `[0.5, 1.7]`; in particular both boundary ratios are accepted. -/
theorem c6_over_modified_iff (original purified : List Char)
    (h : pyStrip original ≠ []) :
    is_over_modified original purified = true
      ↔ (10 * (pyStrip purified).length > 17 * (pyStrip original).length
          ∨ 2 * (pyStrip purified).length < (pyStrip original).length) :=
  over_modified_iff_aux original purified h

/-- Witness for C6 as amended: stripping an all-whitespace purified text gives
ratio 0 < 0.5, so it is flagged as over-modified. -/
theorem c6_over_modified_iff_witness :
    is_over_modified ('a' :: 'b' :: 'c' :: []) [' '] = true :=
  (c6_over_modified_iff ('a' :: 'b' :: 'c' :: []) [' '] (by decide)).mpr
    (by decide)

/-- C7: a whitelisted original (its stripped, space-free form is a whitelist
entry) is always returned unchanged by `post_process`, for every purified
text. -/
theorem c7_whitelist_overrides (original purified : List Char)
    (h : List.filter (fun c => !(c == ' ')) (pyStrip original) ∈ WHITELIST) :
    post_process original purified = original := by
  have hw : is_whitelisted original = true := by
    simp only [is_whitelisted]
    rw [if_pos h]
  unfold post_process
  by_cases h1 : validate_output purified = false
  · rw [if_pos h1]
  · rw [if_neg h1]
    by_cases h2 : is_over_modified original purified = true
    · rw [if_pos h2]
    · rw [if_neg h2]
      by_cases h3 : check_meaning_preservation original purified = false
      · rw [if_pos h3]
      · rw [if_neg h3]
        rw [if_pos hw]

/-- Witness for C7: `"좋아"` survives any purified text, here one that passes
all other validator checks. -/
theorem c7_whitelist_overrides_witness :
    post_process "좋아".data "정말 좋은 말이야".data = "좋아".data :=
  c7_whitelist_overrides _ _ (by decide)

set_option maxRecDepth 20000 in
/-- C8: with no character and the scene `"웃고 있어"`, the generation prompt is
the five style keywords joined by `", "`, then `". "`, then the scene segment,
closed by a single period; it ends in `"Scene: 웃고 있어."` and contains no
character segment. -/
theorem c8_prompt_composition :
    build_webtoon_prompt none "웃고 있어".data true
      = List.intercalate ", ".data (STYLE_KEYWORDS_TO_REMOVE.take 5)
        ++ ". ".data ++ "Scene: 웃고 있어".data ++ ".".data
    ∧ "Scene: 웃고 있어.".data <:+ build_webtoon_prompt none "웃고 있어".data true
    ∧ ¬ ("Character: ".data <:+: build_webtoon_prompt none "웃고 있어".data true) := by
  refine ⟨by decide, by decide, by decide⟩

/-- C10: `refine` returns the original input unchanged whenever the model call
raises, and in every case returns either the original text or the
post-processed model output — never a propagated exception (it is a total
function of the call outcome). -/
theorem c10_refine_degrades_to_original (text : List Char) :
    refine text CallResult.raised = text
    ∧ ∀ oc : CallResult (List Char),
        refine text oc = text
        ∨ ∃ p, oc = CallResult.ok p
            ∧ refine text oc = keep_before_first_period (remove_dummy_tokens p) := by
  refine ⟨rfl, ?_⟩
  intro oc
  cases oc with
  | ok p => exact Or.inr ⟨p, rfl, rfl⟩
  | raised => exact Or.inl rfl

/-- C2: a request whose scene text is blank after stripping returns the fixed
empty-prompt response immediately — `image_url` absent, the fixed error
message, all derived fields empty — and the character store is unchanged, for
every environment (so no purification, prompt composition or generation can
influence the result). -/
theorem c2_empty_prompt_short_circuit (req : ImageRequest) (store : CharStore)
    (env : Env) (h : pyStrip req.original_content = []) :
    generate_image_api req store env
      = ({ access_id := req.access_id, is_slang := req.is_slang,
           original_content := req.original_content, filtered_content := [],
           refined_content := [], revised_prompt := [],
           image_url := none, error_message := some EMPTY_PROMPT_MSG }, store) := by
  unfold generate_image_api
  rw [if_pos (Or.inr h)]

/-- Witness for C2 at a concrete whitespace-only request. -/
theorem c2_empty_prompt_short_circuit_witness :
    generate_image_api
        { access_id := ['u'], original_content := [' ', ' '], is_slang := true,
          access_id_character := some ['c'] }
        [(['u'], ['x'])]
        { purify := CallResult.ok ['p'], clientOk := true,
          openai := OpenAIOutcome.success none, translate := id, koko := id }
      = ({ access_id := ['u'], is_slang := true, original_content := [' ', ' '],
           filtered_content := [], refined_content := [], revised_prompt := [],
           image_url := none, error_message := some EMPTY_PROMPT_MSG },
         [(['u'], ['x'])]) :=
  c2_empty_prompt_short_circuit _ _ _ (by decide)

/- Helper lemmas for the endpoint proofs. -/

theorem intercalate_cons_exists (sep a : List Char) (xs : List (List Char)) :
    ∃ r, List.intercalate sep (a :: xs) = a ++ r := by
  cases xs with
  | nil => exact ⟨[], by simp [List.intercalate]⟩
  | cons b ys =>
      refine ⟨sep ++ List.intercalate sep (b :: ys), ?_⟩
      simp [List.intercalate, List.intersperse]

theorem mem_intercalate_cons_append (x : Char) (sep a : List Char)
    (tail : List (List Char)) (sfx : List Char) (h : x ∈ a) :
    x ∈ List.intercalate sep (a :: tail) ++ sfx := by
  obtain ⟨r, hr⟩ := intercalate_cons_exists sep a tail
  rw [hr]
  exact List.mem_append.mpr (Or.inl (List.mem_append.mpr (Or.inl h)))

theorem build_webtoon_prompt_mem_w (c : Option (List Char)) (s : List Char) :
    'w' ∈ build_webtoon_prompt c s true := by
  show 'w' ∈ List.intercalate ". ".data
      (List.intercalate ", ".data (STYLE_KEYWORDS_TO_REMOVE.take 5) :: _) ++ ".".data
  exact mem_intercalate_cons_append 'w' _ _ _ _ (by decide)

theorem final_prompt_ne_blank (saved : Option (List Char)) (filtered : List Char) :
    pyStrip (final_prompt_of saved filtered) ≠ [] := by
  have hw : ∀ c s, pyStrip (build_webtoon_prompt c s true) ≠ [] := fun c s =>
    pyStrip_ne_nil_of_mem _ 'w' (build_webtoon_prompt_mem_w c s) (by decide)
  unfold final_prompt_of
  cases saved with
  | some c =>
      by_cases hc : c ≠ []
      · show pyStrip (if c ≠ [] then build_webtoon_prompt (some c) filtered true
                      else build_webtoon_prompt none filtered true) ≠ []
        rw [if_pos hc]
        exact hw _ _
      · show pyStrip (if c ≠ [] then build_webtoon_prompt (some c) filtered true
                      else build_webtoon_prompt none filtered true) ≠ []
        rw [if_neg hc]
        exact hw _ _
  | none => exact hw _ _

theorem classify_response_filtered (req : ImageRequest)
    (saved : Option (List Char)) (filtered : List Char)
    (d : DalleResult) (env : Env) :
    (classify_response req saved filtered d env).filtered_content = filtered := by
  unfold classify_response
  split
  · rfl
  · split
    · rfl
    · rfl

theorem classify_response_invariant (req : ImageRequest)
    (saved : Option (List Char)) (filtered : List Char)
    (d : DalleResult) (env : Env) :
    ((classify_response req saved filtered d env).image_url = none
      ∧ ∃ m, (classify_response req saved filtered d env).error_message = some m ∧ m ≠ [])
    ∨ (∃ u, (classify_response req saved filtered d env).image_url = some u
        ∧ (classify_response req saved filtered d env).error_message = none) := by
  unfold classify_response
  split
  · exact Or.inl ⟨rfl, POLICY_MSG, rfl, by decide⟩
  · split
    · refine Or.inl ⟨rfl, _, rfl, ?_⟩
      intro hc
      rw [List.append_eq_nil] at hc
      exact absurd hc.1 (by decide)
    · exact Or.inr ⟨_, rfl, rfl⟩

theorem purify_stage_slang (req : ImageRequest) (env : Env)
    (hs : req.is_slang = true)
    (h2 : pyStrip (refine req.original_content env.purify) ≠ []) :
    purify_stage req env = some (refine req.original_content env.purify) := by
  unfold purify_stage
  rw [hs]
  rw [if_pos rfl]
  rw [show (let purified_prompt := refine req.original_content env.purify;
        if purified_prompt = [] ∨ pyStrip purified_prompt = [] then none
        else some purified_prompt)
      = (if refine req.original_content env.purify = []
            ∨ pyStrip (refine req.original_content env.purify) = [] then
           (none : Option (List Char))
         else some (refine req.original_content env.purify)) from rfl]
  rw [if_neg (by
    rintro (he | he)
    · exact h2 (by rw [he]; rfl)
    · exact h2 he)]

theorem purify_stage_total (req : ImageRequest) (env : Env)
    (h1 : req.is_slang = true → pyStrip (refine req.original_content env.purify) ≠ []) :
    purify_stage req env
      = some (if req.is_slang = true then refine req.original_content env.purify
              else req.original_content) := by
  by_cases hs : req.is_slang = true
  · rw [if_pos hs]
    exact purify_stage_slang req env hs (h1 hs)
  · rw [if_neg hs]
    unfold purify_stage
    rw [if_neg hs]

theorem generate_image_cpv (clientOk : Bool) (models prompt msg : List Char)
    (hc : clientOk = true) (hm : ¬ (models = [] ∨ pyStrip models = []))
    (hp : ¬ (prompt = [] ∨ pyStrip prompt = []))
    (h4 : CPV_MSG <:+: msg) :
    generate_image clientOk models prompt (OpenAIOutcome.badRequest msg)
      = ⟨none, none, some CPV_MSG⟩ := by
  unfold generate_image
  rw [hc]
  rw [if_neg (by decide)]
  rw [if_neg hp, if_neg hm]
  show (if decide (CPV_MSG <:+: msg) = true then
          (⟨none, none, some CPV_MSG⟩ : DalleResult)
        else ⟨none, none, some ("Bad request: ".data ++ msg)⟩) = _
  rw [if_pos (decide_eq_true h4)]

/-- C1: every response of the generation endpoint either has `image_url`
absent together with a non-empty `error_message`, or carries an image URL and
no error message — presence of the URL and absence of an error coincide, and
no response carries both. -/
theorem c1_image_url_iff_success (req : ImageRequest) (store : CharStore) (env : Env) :
    ((generate_image_api req store env).1.image_url = none
      ∧ ∃ m, (generate_image_api req store env).1.error_message = some m ∧ m ≠ [])
    ∨ (∃ u, (generate_image_api req store env).1.image_url = some u
        ∧ (generate_image_api req store env).1.error_message = none) := by
  unfold generate_image_api
  split
  · exact Or.inl ⟨rfl, EMPTY_PROMPT_MSG, rfl, by decide⟩
  · cases hp : purify_stage req env with
    | none => exact Or.inl ⟨rfl, REFINE_ERROR_MSG, rfl, by decide⟩
    | some filtered =>
        exact classify_response_invariant req
          (get_character (store_after_character_save req store) req.access_id)
          filtered
          (generate_image env.clientOk IMAGE_MODEL
            (final_prompt_of
              (get_character (store_after_character_save req store) req.access_id)
              filtered)
            env.openai)
          env

set_option maxRecDepth 40000 in
/-- C3 counterexample: with purification requested and the purification
capability returning the non-empty string `"!!!!!@"` — which fails the
structure check of the Output Validator — the pipeline still uses `"!!!!!@"`
as the filtered scene, not the original text: the validator chain is not
invoked by the generation endpoint. -/
theorem c3_validator_not_wired_cex :
    validate_output ('!' :: '!' :: '!' :: '!' :: '!' :: '@' :: []) = false
    ∧ (generate_image_api
         { access_id := ['u'], original_content := '나' :: '쁜' :: [],
           is_slang := true, access_id_character := none }
         []
         { purify := CallResult.ok ('!' :: '!' :: '!' :: '!' :: '!' :: '@' :: []),
           clientOk := false, openai := OpenAIOutcome.success none,
           translate := id, koko := id }).1.filtered_content
        = ('!' :: '!' :: '!' :: '!' :: '!' :: '@' :: [])
    ∧ ('!' :: '!' :: '!' :: '!' :: '!' :: '@' :: []) ≠ ('나' :: '쁜' :: []) := by
  refine ⟨by decide, by decide, by decide⟩

/-- C3 as amended: the post-processing module does implement the gate — if the
structure check, the over-modification check or the meaning-preservation check
fails, `post_process` returns the original text — but the generation endpoint
never invokes it: whenever purification is requested and returns a non-blank
result, the endpoint uses the model output directly as the filtered scene. -/
theorem c3_validator_gates_post_process_only :
    (∀ original purified : List Char,
        validate_output purified = false ∨ is_over_modified original purified = true
          ∨ check_meaning_preservation original purified = false →
        post_process original purified = original)
    ∧ (∀ (req : ImageRequest) (store : CharStore) (env : Env),
        pyStrip req.original_content ≠ [] → req.is_slang = true →
        pyStrip (refine req.original_content env.purify) ≠ [] →
        (generate_image_api req store env).1.filtered_content
          = refine req.original_content env.purify) := by
  constructor
  · intro o p h
    unfold post_process
    by_cases h1 : validate_output p = false
    · rw [if_pos h1]
    · rw [if_neg h1]
      by_cases hov : is_over_modified o p = true
      · rw [if_pos hov]
      · rw [if_neg hov]
        by_cases h3 : check_meaning_preservation o p = false
        · rw [if_pos h3]
        · rcases h with h | h | h
          · exact absurd h h1
          · exact absurd h hov
          · exact absurd h h3
  · intro req store env h0 hs h2
    unfold generate_image_api
    rw [if_neg (by
      rintro (he | he)
      · exact h0 (by rw [he]; rfl)
      · exact h0 he)]
    rw [purify_stage_slang req env hs h2]
    exact classify_response_filtered req _ _ _ env

set_option maxRecDepth 40000 in
/-- Witness for C3 as amended at concrete inputs. -/
theorem c3_validator_gates_post_process_only_witness :
    post_process ('나' :: '쁜' :: []) ('!' :: '!' :: '!' :: '!' :: '!' :: '@' :: [])
      = ('나' :: '쁜' :: [])
    ∧ (generate_image_api
         { access_id := ['v'], original_content := '나' :: '쁜' :: [],
           is_slang := true, access_id_character := none }
         []
         { purify := CallResult.ok ('욕' :: []),
           clientOk := false, openai := OpenAIOutcome.success none,
           translate := id, koko := id }).1.filtered_content
        = refine ('나' :: '쁜' :: []) (CallResult.ok ('욕' :: [])) :=
  ⟨c3_validator_gates_post_process_only.1 _ _ (Or.inl (by decide)),
   c3_validator_gates_post_process_only.2 _ _ _ (by decide) rfl (by decide)⟩

/-- C9: whenever a request that passes validation and purification reaches the
image-generation capability and the capability call fails with a bad-request
error whose message carries the content-policy marker, the response has
`image_url` absent, the fixed policy-violation error message, and the filtered
scene text carried both as `filtered_content` and as the caller-facing
`refined_content`. -/
theorem c9_policy_rejection (req : ImageRequest) (store : CharStore) (env : Env)
    (msg : List Char)
    (h0 : pyStrip req.original_content ≠ [])
    (h1 : req.is_slang = true → pyStrip (refine req.original_content env.purify) ≠ [])
    (h2 : env.clientOk = true)
    (h3 : env.openai = OpenAIOutcome.badRequest msg)
    (h4 : CPV_MSG <:+: msg) :
    (generate_image_api req store env).1
      = { access_id := req.access_id, is_slang := req.is_slang,
          original_content := req.original_content,
          filtered_content :=
            if req.is_slang = true then refine req.original_content env.purify
            else req.original_content,
          refined_content :=
            if req.is_slang = true then refine req.original_content env.purify
            else req.original_content,
          revised_prompt := [],
          image_url := none, error_message := some POLICY_MSG } := by
  unfold generate_image_api
  rw [if_neg (by
    rintro (he | he)
    · exact h0 (by rw [he]; rfl)
    · exact h0 he)]
  rw [purify_stage_total req env h1]
  show classify_response req
      (get_character (store_after_character_save req store) req.access_id)
      (if req.is_slang = true then refine req.original_content env.purify
       else req.original_content)
      (generate_image env.clientOk IMAGE_MODEL
        (final_prompt_of (get_character (store_after_character_save req store) req.access_id)
          (if req.is_slang = true then refine req.original_content env.purify
           else req.original_content))
        env.openai)
      env
    = _
  rw [h3]
  rw [generate_image_cpv env.clientOk IMAGE_MODEL _ msg h2
    (by decide)
    (by
      rintro (he | he)
      · exact final_prompt_ne_blank _ _ (by rw [he]; rfl)
      · exact final_prompt_ne_blank _ _ he)
    h4]
  unfold classify_response
  rw [if_pos rfl]

/-- Witness for C9 at a concrete request rejected by the content policy. -/
theorem c9_policy_rejection_witness :
    (generate_image_api
        { access_id := ['u'], original_content := ['달'], is_slang := false,
          access_id_character := none }
        []
        { purify := CallResult.raised, clientOk := true,
          openai := OpenAIOutcome.badRequest ("x ".data ++ CPV_MSG),
          translate := id, koko := id }).1
      = { access_id := ['u'], is_slang := false, original_content := ['달'],
          filtered_content := ['달'], refined_content := ['달'],
          revised_prompt := [],
          image_url := none, error_message := some POLICY_MSG } := by
  have h := c9_policy_rejection
    { access_id := ['u'], original_content := ['달'], is_slang := false,
      access_id_character := none }
    []
    { purify := CallResult.raised, clientOk := true,
      openai := OpenAIOutcome.badRequest ("x ".data ++ CPV_MSG),
      translate := id, koko := id }
    ("x ".data ++ CPV_MSG)
    (by decide) (by intro hs; exact absurd hs (by decide)) rfl rfl (by decide)
  simpa using h
